import Mathlib

/-!
Verification of the client-side search application.

The development shallowly embeds the TypeScript sources:
* `src/services/api.ts` — the `SearchAPI` class (filtering, ranking, pagination,
  caching, suggestions);
* `src/hooks/useSearch.ts` — the `useSearch` hook (debounce, abort-on-supersede,
  request-id guarded state writes), modelled as an event-step machine;
* `src/components/SearchInput.tsx` — the URL synchronisation effect.

JavaScript strings are modelled by `String`; `toLowerCase`, `trim` and
`includes` are given executable models over the character list so that concrete
instances evaluate inside the kernel.  `Date.now()` / `performance.now()`
values are explicit `Int` parameters threaded through `SearchEnv`.  Dates of
results are carried as the `getTime` value (`Int`) of the date string, since
the code only ever consumes `new Date(r.date).getTime()`.
-/

/-- Model of JavaScript `String.prototype.toLowerCase`, computed on the
character list so that the kernel can evaluate it. -/
def jsToLower (s : String) : String := String.mk (s.data.map Char.toLower)

/-- Model of JavaScript `String.prototype.trim`: strip whitespace from both
ends. -/
def jsTrim (s : String) : String :=
  String.mk (((s.data.dropWhile Char.isWhitespace).reverse.dropWhile
    Char.isWhitespace).reverse)

/-- Model of JavaScript `hay.includes(sub)`: `sub` occurs contiguously in
`hay`. -/
def jsIncludes (hay sub : String) : Bool := decide (sub.data <:+: hay.data)

/-- The `SearchResult` record from `useSearch.ts`.  The `date` field carries
the numeric `new Date(dateString).getTime()` value, the only form in which the
code consumes it. -/
structure SearchResult where
  id : String
  title : String
  description : String
  category : String
  tags : List String
  url : String
  author : String
  date : Int
deriving DecidableEq, Repr, Inhabited

/-- The `SearchResponse` record from `api.ts`. -/
structure SearchResponse where
  results : List SearchResult
  total : Nat
  query : String
  took : Int
deriving DecidableEq, Repr

/-- The `SearchParams` record from `api.ts`; `limit` and `offset` are
optional with defaults applied inside `search`. -/
structure SearchParams where
  query : String
  limit? : Option Nat := none
  offset? : Option Nat := none
deriving DecidableEq, Repr

/-- The `cacheTimeout` constant of `SearchAPI`: five minutes in
milliseconds. -/
def cacheTimeout : Int := 5 * 60 * 1000

/-- The in-memory `Map` cache of `SearchAPI`, as an association list from the
cache-key string to the stored response. -/
abbrev SearchCache := List (String × SearchResponse)

/-- The cache key built in `SearchAPI.search`:
`` `${query}-${limit}-${offset}` ``. -/
def mkCacheKey (query : String) (limit offset : Nat) : String :=
  query ++ "-" ++ toString limit ++ "-" ++ toString offset

/-- JavaScript `Map.set`: replace any previous binding of `key`. -/
def cacheSet (cache : SearchCache) (key : String) (resp : SearchResponse) :
    SearchCache :=
  (key, resp) :: cache.filter (fun e => e.1 ≠ key)

/-- The cache consultation of `SearchAPI.search` lines 41–44: the stored
response is returned only when `Date.now() - cached.took < cacheTimeout`.
Note that the code compares the wall-clock `Date.now()` with the stored
`took` field, which holds a `performance.now()` duration. -/
def cacheHit (cache : SearchCache) (key : String) (now : Int) :
    Option SearchResponse :=
  match cache.lookup key with
  | some cached => if now - cached.took < cacheTimeout then some cached else none
  | none => none

/-- `SearchAPI.filterResults`: the search text of one result, the template
literal
`` `${title} ${description} ${category} ${tags.join(' ')} ${author}` ``. -/
def searchText (r : SearchResult) : String :=
  r.title ++ " " ++ r.description ++ " " ++ r.category ++ " " ++
    String.intercalate " " r.tags ++ " " ++ r.author

/-- `SearchAPI.filterResults`: keep the results whose lowercased search text
contains the lowercased query. -/
def filterResults (results : List SearchResult) (query : String) :
    List SearchResult :=
  let queryLower := jsToLower query
  results.filter (fun result => jsIncludes (jsToLower (searchText result)) queryLower)

/-- Title-match test of the `sortResults` comparator:
`a.title.toLowerCase().includes(queryLower)`. -/
def titleMatch (query : String) (r : SearchResult) : Bool :=
  jsIncludes (jsToLower r.title) (jsToLower query)

/-- Category-match test of the `sortResults` comparator. -/
def categoryMatch (query : String) (r : SearchResult) : Bool :=
  jsIncludes (jsToLower r.category) (jsToLower query)

/-- The comparator of `SearchAPI.sortResults`, expressed as the relation
`comparator(a, b) ≤ 0` ("`a` need not come after `b`"): title matches first,
then category matches, then newer (larger) date first. -/
def sortLE (query : String) (a b : SearchResult) : Bool :=
  if titleMatch query a ≠ titleMatch query b then titleMatch query a
  else if categoryMatch query a ≠ categoryMatch query b then categoryMatch query a
  else decide (b.date ≤ a.date)

/-- The comparator relation as a `Prop`, for use with `List.insertionSort`. -/
def sortRel (query : String) (a b : SearchResult) : Prop :=
  sortLE query a b = true

instance (query : String) : DecidableRel (sortRel query) :=
  fun a b => inferInstanceAs (Decidable (sortLE query a b = true))

/-- `SearchAPI.sortResults`.  `Array.prototype.sort` with a consistent
comparator returns the stable sort by that comparator; a stable structural
sort (`insertionSort`) by the same total preorder is extensionally the same
list. -/
def sortResults (results : List SearchResult) (query : String) :
    List SearchResult :=
  results.insertionSort (sortRel query)

/-- Outcome of the `fetch` of the static JSON asset: the parsed
`data.searchResults` array, a non-ok HTTP response, or a network-level
rejection. -/
inductive FetchOutcome where
  | ok (data : List SearchResult)
  | httpError (status : Nat)
  | netError (msg : String)
deriving DecidableEq, Repr

/-- The environment of one `SearchAPI.search` call: the fetch outcome and the
clock values read during the call (`Date.now()` for the cache check,
`performance.now()` at entry and at response construction). -/
structure SearchEnv where
  fetch : FetchOutcome
  now : Int
  startTime : Int
  endTime : Int
deriving DecidableEq, Repr

/-- `SearchAPI.search`.  The mutable `this.cache` is threaded explicitly: the
call returns the response together with the updated cache.  A rejected promise
is the `.error` case; per the `catch` block, a failure with an aborted signal
is replaced by `Request cancelled`. -/
def search (cache : SearchCache) (p : SearchParams) (aborted : Bool)
    (env : SearchEnv) : Except String (SearchResponse × SearchCache) :=
  let query := p.query
  let limit := p.limit?.getD 10
  let offset := p.offset?.getD 0
  let cacheKey := mkCacheKey query limit offset
  match cacheHit cache cacheKey env.now with
  | some cached => .ok (cached, cache)
  | none =>
    match env.fetch with
    | .ok data =>
        let filteredResults := filterResults data query
        let sortedResults := sortResults filteredResults query
        let paginatedResults := (sortedResults.drop offset).take limit
        let searchResponse : SearchResponse :=
          { results := paginatedResults
            total := filteredResults.length
            query := query
            took := env.endTime - env.startTime }
        .ok (searchResponse, cacheSet cache cacheKey searchResponse)
    | .httpError status =>
        if aborted then .error "Request cancelled"
        else .error ("HTTP error! status: " ++ toString status)
    | .netError msg =>
        if aborted then .error "Request cancelled" else .error msg

/-- JavaScript `Set.add` on an insertion-ordered set represented as a
duplicate-free list. -/
def setAdd (l : List String) (s : String) : List String :=
  if s ∈ l then l else l ++ [s]

/-- The body of the `allResults.forEach` loop of `SearchAPI.getSuggestions`:
add the title, the category and every tag of `r` that contains the query,
case-insensitively. -/
def addSuggestions (query : String) (acc : List String) (r : SearchResult) :
    List String :=
  let acc1 := if jsIncludes (jsToLower r.title) (jsToLower query) then
    setAdd acc r.title else acc
  let acc2 := if jsIncludes (jsToLower r.category) (jsToLower query) then
    setAdd acc1 r.category else acc1
  r.tags.foldl
    (fun a tag => if jsIncludes (jsToLower tag) (jsToLower query) then
      setAdd a tag else a) acc2

/-- `SearchAPI.getSuggestions`: empty for queries of fewer than two
characters; otherwise collect matching titles, categories and tags into a set
and return the first five. -/
def getSuggestions (query : String) (aborted : Bool) (fetch : FetchOutcome) :
    Except String (List String) :=
  if query.length < 2 then .ok []
  else
    match fetch with
    | .ok data => .ok ((data.foldl (addSuggestions query) []).take 5)
    | .httpError status =>
        if aborted then .error "Request cancelled"
        else .error ("HTTP error! status: " ++ toString status)
    | .netError msg =>
        if aborted then .error "Request cancelled" else .error msg

/-- The `SearchState` record of the `useSearch` hook. -/
structure SearchState where
  results : List SearchResult
  loading : Bool
  error : Option String
  query : String
deriving DecidableEq, Repr

/-- One request started by `performSearch`: its captured `currentRequestId`
and the `aborted` flag of the `AbortController` created for it.  Requests are
kept forever in the machine, so "at most one un-aborted request" quantifies
over every request ever started. -/
structure SearchRequest where
  id : Nat
  query : String
  aborted : Bool
deriving DecidableEq, Repr

/-- One pending `setTimeout` scheduled by the debounced `setQuery`. -/
structure DebounceTimer where
  id : Nat
  deadline : Nat
  query : String
deriving DecidableEq, Repr

/-- State of the `useSearch` hook: the React state, the three refs
(`requestIdRef`, the abort flags of the controllers, `debounceTimeoutRef`),
the pending timers of the runtime, and a log of the queries passed to
`performSearch` (mirroring `logger.searchStarted`). -/
structure HookMachine where
  st : SearchState
  requestId : Nat
  requests : List SearchRequest
  timers : List DebounceTimer
  timerRef : Option Nat
  nextTimerId : Nat
  searchLog : List String
  minQueryLength : Nat
  debounceMs : Nat
deriving DecidableEq, Repr

/-- The hook state after mount, with the option values of `useSearch`. -/
def initMachine (minQueryLength debounceMs : Nat) : HookMachine :=
  { st := { results := [], loading := false, error := none, query := "" }
    requestId := 0
    requests := []
    timers := []
    timerRef := none
    nextTimerId := 0
    searchLog := []
    minQueryLength := minQueryLength
    debounceMs := debounceMs }

/-- The synchronous prefix of `performSearch` (up to the `await`): log the
query; short queries clear the results; otherwise abort the previous
controller (the one of the request carrying the current `requestIdRef`
value), create a fresh controller, increment `requestIdRef` and publish the
loading state. -/
def performSearchStart (m : HookMachine) (query : String) : HookMachine :=
  let m0 := { m with searchLog := m.searchLog ++ [query] }
  if query.length < m0.minQueryLength then
    { m0 with st := { m0.st with
        results := []
        loading := false
        error := none
        query := query } }
  else
    let abortedPrev := m0.requests.map
      (fun r => if r.id = m0.requestId then { r with aborted := true } else r)
    { m0 with
      requestId := m0.requestId + 1
      requests := abortedPrev ++
        [{ id := m0.requestId + 1, query := query, aborted := false }]
      st := { m0.st with loading := true, error := none, query := query } }

/-- Resolution of the promise of the request with id `rid` (lines 99–109 of
the hook): the results are stored only when `rid` is still the current
request id. -/
def stepComplete (m : HookMachine) (rid : Nat)
    (results : List SearchResult) : HookMachine :=
  if rid = m.requestId then
    { m with st := { m.st with
        results := results
        loading := false
        error := none } }
  else m

/-- Rejection of the promise of the request with id `rid` (lines 112–125):
the error is stored only when `rid` is still the current request id and the
request's own controller has not been aborted. -/
def stepFail (m : HookMachine) (rid : Nat) (msg : String) : HookMachine :=
  match m.requests.find? (fun r => r.id == rid) with
  | some req =>
      if rid = m.requestId ∧ req.aborted = false then
        { m with st := { m.st with loading := false, error := some msg } }
      else m
  | none => m

/-- The debounced `setQuery` at wall-clock time `t`: publish the query,
`clearTimeout` the referenced pending timer, and schedule `performSearch`
after `debounceMs`. -/
def stepSetQuery (m : HookMachine) (t : Nat) (query : String) : HookMachine :=
  let m0 := { m with st := { m.st with query := query } }
  let remaining :=
    match m0.timerRef with
    | some tid => m0.timers.filter (fun tm => tm.id ≠ tid)
    | none => m0.timers
  { m0 with
    timers := remaining ++
      [{ id := m0.nextTimerId, deadline := t + m0.debounceMs, query := query }]
    timerRef := some m0.nextTimerId
    nextTimerId := m0.nextTimerId + 1 }

/-- The runtime attempts to fire timer `tid` at time `t`: a timer runs only
once its deadline has passed and only if it has not been cleared; firing
removes it and runs `performSearch` with the captured query. -/
def stepFire (m : HookMachine) (tid : Nat) (t : Nat) : HookMachine :=
  match m.timers.find? (fun tm => tm.id == tid) with
  | some tm =>
      if tm.deadline ≤ t then
        performSearchStart
          { m with timers := m.timers.filter (fun x => x.id ≠ tid) } tm.query
      else m
  | none => m

/-- `clearResults`: abort the current controller, clear the pending debounce
timer, reset the state. -/
def stepClear (m : HookMachine) : HookMachine :=
  let aborted := m.requests.map
    (fun r => if r.id = m.requestId then { r with aborted := true } else r)
  let remaining :=
    match m.timerRef with
    | some tid => m.timers.filter (fun tm => tm.id ≠ tid)
    | none => m.timers
  { m with
    requests := aborted
    timers := remaining
    st := { results := [], loading := false, error := none, query := "" } }

/-- Events of the hook machine: user keystrokes (`setQuery`), timer firings,
promise settlements, and `clearResults`. -/
inductive HookEvent where
  | setQuery (t : Nat) (query : String)
  | fire (tid : Nat) (t : Nat)
  | complete (rid : Nat) (results : List SearchResult)
  | fail (rid : Nat) (msg : String)
  | clear
deriving DecidableEq, Repr

/-- One step of the hook machine. -/
def hookStep (m : HookMachine) : HookEvent → HookMachine
  | .setQuery t query => stepSetQuery m t query
  | .fire tid t => stepFire m tid t
  | .complete rid results => stepComplete m rid results
  | .fail rid msg => stepFail m rid msg
  | .clear => stepClear m

/-- Run a list of events in order. -/
def runEvents (m : HookMachine) (evs : List HookEvent) : HookMachine :=
  evs.foldl hookStep m

/-- Machines reachable from a mounted hook by any interleaving of events. -/
inductive Reachable : HookMachine → Prop
  | init (minQueryLength debounceMs : Nat) :
      Reachable (initMachine minQueryLength debounceMs)
  | next (m : HookMachine) (e : HookEvent) :
      Reachable m → Reachable (hookStep m e)

/-- The page URL's query parameters, as an ordered multimap. -/
structure UrlState where
  params : List (String × String)
deriving DecidableEq, Repr

/-- Observable behaviour of `URLSearchParams.set`: after it, `get k` yields
`v` and no other binding of `k` remains. -/
def urlSetParam (u : UrlState) (k v : String) : UrlState :=
  { params := u.params.filter (fun e => e.1 ≠ k) ++ [(k, v)] }

/-- `URLSearchParams.delete`: remove every binding of `k`. -/
def urlDeleteParam (u : UrlState) (k : String) : UrlState :=
  { params := u.params.filter (fun e => e.1 ≠ k) }

/-- The body of the URL-sync timeout of `SearchInput`: set `q` to the trimmed
value when it is non-empty, otherwise delete `q`; the result is installed via
`history.replaceState`, a pure URL replacement that performs no
navigation. -/
def urlEffect (value : String) (u : UrlState) : UrlState :=
  if jsTrim value ≠ "" then urlSetParam u "q" (jsTrim value)
  else urlDeleteParam u "q"

/-- State of the `SearchInput` URL-sync effect: the current `value` prop, the
page URL, the pending 1000 ms timeout with its captured value, and a counter
of page loads (`history.replaceState` never increments it; only a navigation
such as `window.location.reload()` would). -/
structure InputMachine where
  value : String
  url : UrlState
  urlTimer : Option (Nat × String)
  loadCount : Nat
deriving DecidableEq, Repr

/-- A change of the `value` prop at time `t`: the effect cleanup clears the
previous timeout and the effect schedules a new one 1000 ms later, capturing
the new value. -/
def inputChange (m : InputMachine) (t : Nat) (v : String) : InputMachine :=
  { m with value := v, urlTimer := some (t + 1000, v) }

/-- The runtime fires the pending URL-sync timeout at time `t`, once its
deadline has passed: the URL is replaced according to `urlEffect`. -/
def inputFire (m : InputMachine) (t : Nat) : InputMachine :=
  match m.urlTimer with
  | some (ft, v) =>
      if ft ≤ t then { m with url := urlEffect v m.url, urlTimer := none }
      else m
  | none => m
def matchesQuery (query : String) (r : SearchResult) : Bool :=
  jsIncludes (jsToLower (searchText r)) (jsToLower query)

theorem mem_filterResults {results : List SearchResult} {query : String}
    {r : SearchResult} :
    r ∈ filterResults results query ↔ r ∈ results ∧ matchesQuery query r = true := by
  simp [filterResults, matchesQuery, List.mem_filter]

theorem sortLE_trans (query : String) (a b c : SearchResult)
    (hab : sortLE query a b = true) (hbc : sortLE query b c = true) :
    sortLE query a c = true := by
  unfold sortLE at hab hbc ⊢
  cases hta : titleMatch query a <;> cases htb : titleMatch query b <;>
    cases htc : titleMatch query c <;> cases hca : categoryMatch query a <;>
    cases hcb : categoryMatch query b <;> cases hcc : categoryMatch query c <;>
    simp_all <;> omega

theorem sortLE_total (query : String) (a b : SearchResult) :
    sortLE query a b = true ∨ sortLE query b a = true := by
  unfold sortLE
  cases hta : titleMatch query a <;> cases htb : titleMatch query b <;>
    cases hca : categoryMatch query a <;> cases hcb : categoryMatch query b <;>
    simp_all <;> omega

instance (query : String) : IsTrans SearchResult (sortRel query) :=
  ⟨fun a b c => sortLE_trans query a b c⟩

instance (query : String) : IsTotal SearchResult (sortRel query) :=
  ⟨fun a b => sortLE_total query a b⟩

theorem sortResults_perm (results : List SearchResult) (query : String) :
    (sortResults results query).Perm results :=
  List.perm_insertionSort (sortRel query) results

theorem sortResults_sorted (results : List SearchResult) (query : String) :
    List.Sorted (sortRel query) (sortResults results query) :=
  List.sorted_insertionSort (sortRel query) results

theorem sortLE_spec (query : String) (a b : SearchResult)
    (h : sortLE query a b = true) :
    (titleMatch query b = true → titleMatch query a = true) ∧
    (titleMatch query a = titleMatch query b →
      categoryMatch query b = true → categoryMatch query a = true) ∧
    (titleMatch query a = titleMatch query b →
      categoryMatch query a = categoryMatch query b → b.date ≤ a.date) := by
  unfold sortLE at h
  cases hta : titleMatch query a <;> cases htb : titleMatch query b <;>
    cases hca : categoryMatch query a <;> cases hcb : categoryMatch query b <;>
    simp_all

theorem mem_sortResults {x : SearchResult} {l : List SearchResult}
    {query : String} : x ∈ sortResults l query ↔ x ∈ l :=
  (sortResults_perm l query).mem_iff

theorem cacheHit_lookup {cache : SearchCache} {key : String} {now : Int}
    {resp : SearchResponse} (h : cacheHit cache key now = some resp) :
    cache.lookup key = some resp := by
  unfold cacheHit at h
  split at h
  · split at h
    · simp_all
    · exact absurd h (by simp)
  · exact absurd h (by simp)

def CacheWF (cache : SearchCache) : Prop :=
  ∀ query limit offset resp,
    cache.lookup (mkCacheKey query limit offset) = some resp →
    ∀ r ∈ resp.results, matchesQuery query r = true

/-- C3: the filtering step keeps exactly those results whose concatenation of
title, description, category, space-joined tags and author, lowercased,
contains the lowercased query as a substring; hence every result returned by
a successful `SearchAPI.search` call matches the query in this sense (the
cache hypothesis `CacheWF` holds of the empty cache a fresh `SearchAPI`
starts from). -/
theorem C3_filter_keeps_exactly_matches (results : List SearchResult)
    (q : String) (r : SearchResult) (cache : SearchCache) (p : SearchParams)
    (aborted : Bool) (env : SearchEnv) (resp : SearchResponse)
    (cache' : SearchCache) (hwf : CacheWF cache)
    (hok : search cache p aborted env = .ok (resp, cache')) :
    (r ∈ filterResults results q ↔ r ∈ results ∧ matchesQuery q r = true) ∧
    (∀ x ∈ resp.results, matchesQuery p.query x = true) := by
  refine ⟨mem_filterResults, ?_⟩
  simp only [search] at hok
  cases hhit : cacheHit cache
      (mkCacheKey p.query (p.limit?.getD 10) (p.offset?.getD 0)) env.now with
  | some cached =>
      simp only [hhit, Except.ok.injEq, Prod.mk.injEq] at hok
      obtain ⟨rfl, rfl⟩ := hok
      exact hwf p.query (p.limit?.getD 10) (p.offset?.getD 0) cached
        (cacheHit_lookup hhit)
  | none =>
      simp only [hhit] at hok
      cases hfetch : env.fetch with
      | ok data =>
          simp only [hfetch, Except.ok.injEq, Prod.mk.injEq] at hok
          obtain ⟨rfl, rfl⟩ := hok
          intro x hx
          simp only at hx
          have hx2 : x ∈ sortResults (filterResults data p.query) p.query :=
            (List.drop_sublist _ _).mem ((List.take_sublist _ _).mem hx)
          exact (mem_filterResults.mp (mem_sortResults.mp hx2)).2
      | httpError status =>
          simp only [hfetch] at hok
          split at hok <;> exact absurd hok (by simp)
      | netError msg =>
          simp only [hfetch] at hok
          split at hok <;> exact absurd hok (by simp)

/-- C4: in the sorted output of `SearchAPI.sortResults`, every result whose
lowercased title contains the lowercased query precedes every result whose
title does not; among results with equal title-match status, category matches
precede non-matches; and among results equal on both, a newer date precedes
an older one. -/
theorem C4_sort_relevance_order (q : String) (l : List SearchResult)
    (i j : Nat) (hi : i < (sortResults l q).length)
    (hj : j < (sortResults l q).length) (hij : i < j) :
    (titleMatch q ((sortResults l q).getD j default) = true →
      titleMatch q ((sortResults l q).getD i default) = true) ∧
    (titleMatch q ((sortResults l q).getD i default) =
        titleMatch q ((sortResults l q).getD j default) →
      categoryMatch q ((sortResults l q).getD j default) = true →
      categoryMatch q ((sortResults l q).getD i default) = true) ∧
    (titleMatch q ((sortResults l q).getD i default) =
        titleMatch q ((sortResults l q).getD j default) →
      categoryMatch q ((sortResults l q).getD i default) =
        categoryMatch q ((sortResults l q).getD j default) →
      ((sortResults l q).getD j default).date ≤
        ((sortResults l q).getD i default).date) := by
  have hp : List.Pairwise (sortRel q) (sortResults l q) := sortResults_sorted l q
  have hle := List.pairwise_iff_getElem.mp hp i j hi hj hij
  rw [List.getD_eq_getElem _ _ hi, List.getD_eq_getElem _ _ hj]
  exact sortLE_spec q _ _ hle

/-- C9: every successful `SearchAPI.search` response computed from the
dataset (cache miss path) has `results` equal to the sorted filtered list
sliced from `offset` to `offset + limit` (hence at most `limit` entries),
`total` equal to the number of all filtered matches (which can exceed the
number of returned results), and the echoed `query` field equal to the
requested query. -/
theorem C9_response_shape (cache : SearchCache) (p : SearchParams)
    (aborted : Bool) (env : SearchEnv) (data : List SearchResult)
    (resp : SearchResponse) (cache' : SearchCache)
    (hfetch : env.fetch = .ok data)
    (hmiss : cacheHit cache
      (mkCacheKey p.query (p.limit?.getD 10) (p.offset?.getD 0)) env.now = none)
    (hok : search cache p aborted env = .ok (resp, cache')) :
    resp.results = ((sortResults (filterResults data p.query) p.query).drop
        (p.offset?.getD 0)).take (p.limit?.getD 10) ∧
    resp.results.length ≤ p.limit?.getD 10 ∧
    resp.total = (filterResults data p.query).length ∧
    resp.results.length ≤ resp.total ∧
    resp.query = p.query := by
  simp only [search, hmiss, hfetch, Except.ok.injEq, Prod.mk.injEq] at hok
  obtain ⟨rfl, rfl⟩ := hok
  refine ⟨rfl, ?_, rfl, ?_, rfl⟩
  · exact List.length_take_le _ _
  · simp only
    calc (((sortResults (filterResults data p.query) p.query).drop
          (p.offset?.getD 0)).take (p.limit?.getD 10)).length
        ≤ ((sortResults (filterResults data p.query) p.query).drop
          (p.offset?.getD 0)).length := (List.take_sublist _ _).length_le
      _ ≤ (sortResults (filterResults data p.query) p.query).length :=
          (List.drop_sublist _ _).length_le
      _ = (filterResults data p.query).length := (sortResults_perm _ _).length_eq

theorem C3_witness :
    CacheWF [] ∧
    search [] { query := "a" } false
      { fetch := .ok [{ id := "", title := "a", description := "", category := "", tags := [], url := "", author := "", date := 0 }], now := 3, startTime := 0, endTime := 2 } =
      .ok ({ results := [{ id := "", title := "a", description := "", category := "", tags := [], url := "", author := "", date := 0 }], total := 1, query := "a", took := 2 },
        [("a-10-0", { results := [{ id := "", title := "a", description := "", category := "", tags := [], url := "", author := "", date := 0 }], total := 1, query := "a", took := 2 })]) ∧
    (({ id := "", title := "a", description := "", category := "", tags := [], url := "", author := "", date := 0 } : SearchResult) ∈
        filterResults [{ id := "", title := "a", description := "", category := "", tags := [], url := "", author := "", date := 0 }] "a" ↔
      ({ id := "", title := "a", description := "", category := "", tags := [], url := "", author := "", date := 0 } : SearchResult) ∈
        [{ id := "", title := "a", description := "", category := "", tags := [], url := "", author := "", date := 0 }] ∧
      matchesQuery "a" { id := "", title := "a", description := "", category := "", tags := [], url := "", author := "", date := 0 } = true) ∧
    (∀ x ∈ ({ results := [{ id := "", title := "a", description := "", category := "", tags := [], url := "", author := "", date := 0 }], total := 1, query := "a", took := 2 } : SearchResponse).results,
      matchesQuery "a" x = true) :=
  And.intro (fun _ _ _ _ h => nomatch h) (And.intro rfl
    (C3_filter_keeps_exactly_matches
      [{ id := "", title := "a", description := "", category := "", tags := [], url := "", author := "", date := 0 }] "a"
      { id := "", title := "a", description := "", category := "", tags := [], url := "", author := "", date := 0 }
      [] { query := "a" } false
      { fetch := .ok [{ id := "", title := "a", description := "", category := "", tags := [], url := "", author := "", date := 0 }], now := 3, startTime := 0, endTime := 2 }
      { results := [{ id := "", title := "a", description := "", category := "", tags := [], url := "", author := "", date := 0 }], total := 1, query := "a", took := 2 }
      [("a-10-0", { results := [{ id := "", title := "a", description := "", category := "", tags := [], url := "", author := "", date := 0 }], total := 1, query := "a", took := 2 })]
      (fun _ _ _ _ h => nomatch h) rfl))

theorem C4_witness :
    0 < (sortResults [{ id := "", title := "z", description := "a", category := "z", tags := [], url := "", author := "", date := 9 }, { id := "", title := "a", description := "", category := "z", tags := [], url := "", author := "", date := 0 }] "a").length ∧
    1 < (sortResults [{ id := "", title := "z", description := "a", category := "z", tags := [], url := "", author := "", date := 9 }, { id := "", title := "a", description := "", category := "z", tags := [], url := "", author := "", date := 0 }] "a").length ∧
    (0 : Nat) < 1 ∧
    ((titleMatch "a" ((sortResults [{ id := "", title := "z", description := "a", category := "z", tags := [], url := "", author := "", date := 9 }, { id := "", title := "a", description := "", category := "z", tags := [], url := "", author := "", date := 0 }] "a").getD 1 default) = true →
      titleMatch "a" ((sortResults [{ id := "", title := "z", description := "a", category := "z", tags := [], url := "", author := "", date := 9 }, { id := "", title := "a", description := "", category := "z", tags := [], url := "", author := "", date := 0 }] "a").getD 0 default) = true) ∧
    (titleMatch "a" ((sortResults [{ id := "", title := "z", description := "a", category := "z", tags := [], url := "", author := "", date := 9 }, { id := "", title := "a", description := "", category := "z", tags := [], url := "", author := "", date := 0 }] "a").getD 0 default) =
        titleMatch "a" ((sortResults [{ id := "", title := "z", description := "a", category := "z", tags := [], url := "", author := "", date := 9 }, { id := "", title := "a", description := "", category := "z", tags := [], url := "", author := "", date := 0 }] "a").getD 1 default) →
      categoryMatch "a" ((sortResults [{ id := "", title := "z", description := "a", category := "z", tags := [], url := "", author := "", date := 9 }, { id := "", title := "a", description := "", category := "z", tags := [], url := "", author := "", date := 0 }] "a").getD 1 default) = true →
      categoryMatch "a" ((sortResults [{ id := "", title := "z", description := "a", category := "z", tags := [], url := "", author := "", date := 9 }, { id := "", title := "a", description := "", category := "z", tags := [], url := "", author := "", date := 0 }] "a").getD 0 default) = true) ∧
    (titleMatch "a" ((sortResults [{ id := "", title := "z", description := "a", category := "z", tags := [], url := "", author := "", date := 9 }, { id := "", title := "a", description := "", category := "z", tags := [], url := "", author := "", date := 0 }] "a").getD 0 default) =
        titleMatch "a" ((sortResults [{ id := "", title := "z", description := "a", category := "z", tags := [], url := "", author := "", date := 9 }, { id := "", title := "a", description := "", category := "z", tags := [], url := "", author := "", date := 0 }] "a").getD 1 default) →
      categoryMatch "a" ((sortResults [{ id := "", title := "z", description := "a", category := "z", tags := [], url := "", author := "", date := 9 }, { id := "", title := "a", description := "", category := "z", tags := [], url := "", author := "", date := 0 }] "a").getD 0 default) =
        categoryMatch "a" ((sortResults [{ id := "", title := "z", description := "a", category := "z", tags := [], url := "", author := "", date := 9 }, { id := "", title := "a", description := "", category := "z", tags := [], url := "", author := "", date := 0 }] "a").getD 1 default) →
      (((sortResults [{ id := "", title := "z", description := "a", category := "z", tags := [], url := "", author := "", date := 9 }, { id := "", title := "a", description := "", category := "z", tags := [], url := "", author := "", date := 0 }] "a").getD 1 default)).date ≤
        (((sortResults [{ id := "", title := "z", description := "a", category := "z", tags := [], url := "", author := "", date := 9 }, { id := "", title := "a", description := "", category := "z", tags := [], url := "", author := "", date := 0 }] "a").getD 0 default)).date)) :=
  And.intro (by decide) (And.intro (by decide) (And.intro (by decide)
    (C4_sort_relevance_order "a"
      [{ id := "", title := "z", description := "a", category := "z", tags := [], url := "", author := "", date := 9 }, { id := "", title := "a", description := "", category := "z", tags := [], url := "", author := "", date := 0 }]
      0 1 (by decide) (by decide) (by decide))))

theorem C9_witness :
    ({ fetch := .ok [{ id := "", title := "a", description := "", category := "", tags := [], url := "", author := "", date := 0 }, { id := "", title := "x", description := "a", category := "", tags := [], url := "", author := "", date := 5 }], now := 3, startTime := 0, endTime := 2 } : SearchEnv).fetch =
      .ok [{ id := "", title := "a", description := "", category := "", tags := [], url := "", author := "", date := 0 }, { id := "", title := "x", description := "a", category := "", tags := [], url := "", author := "", date := 5 }] ∧
    cacheHit [] (mkCacheKey "a" 1 0) 3 = none ∧
    search [] { query := "a", limit? := some 1 } false { fetch := .ok [{ id := "", title := "a", description := "", category := "", tags := [], url := "", author := "", date := 0 }, { id := "", title := "x", description := "a", category := "", tags := [], url := "", author := "", date := 5 }], now := 3, startTime := 0, endTime := 2 } =
      .ok ({ results := [{ id := "", title := "a", description := "", category := "", tags := [], url := "", author := "", date := 0 }], total := 2, query := "a", took := 2 },
        [("a-1-0", { results := [{ id := "", title := "a", description := "", category := "", tags := [], url := "", author := "", date := 0 }], total := 2, query := "a", took := 2 })]) ∧
    (({ results := [{ id := "", title := "a", description := "", category := "", tags := [], url := "", author := "", date := 0 }], total := 2, query := "a", took := 2 } : SearchResponse).results =
      ((sortResults (filterResults [{ id := "", title := "a", description := "", category := "", tags := [], url := "", author := "", date := 0 }, { id := "", title := "x", description := "a", category := "", tags := [], url := "", author := "", date := 5 }] "a") "a").drop 0).take 1 ∧
    ({ results := [{ id := "", title := "a", description := "", category := "", tags := [], url := "", author := "", date := 0 }], total := 2, query := "a", took := 2 } : SearchResponse).results.length ≤ 1 ∧
    ({ results := [{ id := "", title := "a", description := "", category := "", tags := [], url := "", author := "", date := 0 }], total := 2, query := "a", took := 2 } : SearchResponse).total =
      (filterResults [{ id := "", title := "a", description := "", category := "", tags := [], url := "", author := "", date := 0 }, { id := "", title := "x", description := "a", category := "", tags := [], url := "", author := "", date := 5 }] "a").length ∧
    ({ results := [{ id := "", title := "a", description := "", category := "", tags := [], url := "", author := "", date := 0 }], total := 2, query := "a", took := 2 } : SearchResponse).results.length ≤
      ({ results := [{ id := "", title := "a", description := "", category := "", tags := [], url := "", author := "", date := 0 }], total := 2, query := "a", took := 2 } : SearchResponse).total ∧
    ({ results := [{ id := "", title := "a", description := "", category := "", tags := [], url := "", author := "", date := 0 }], total := 2, query := "a", took := 2 } : SearchResponse).query = "a") :=
  And.intro rfl (And.intro rfl (And.intro rfl
    (C9_response_shape [] { query := "a", limit? := some 1 } false
      { fetch := .ok [{ id := "", title := "a", description := "", category := "", tags := [], url := "", author := "", date := 0 }, { id := "", title := "x", description := "a", category := "", tags := [], url := "", author := "", date := 5 }], now := 3, startTime := 0, endTime := 2 }
      [{ id := "", title := "a", description := "", category := "", tags := [], url := "", author := "", date := 0 }, { id := "", title := "x", description := "a", category := "", tags := [], url := "", author := "", date := 5 }]
      { results := [{ id := "", title := "a", description := "", category := "", tags := [], url := "", author := "", date := 0 }], total := 2, query := "a", took := 2 }
      [("a-1-0", { results := [{ id := "", title := "a", description := "", category := "", tags := [], url := "", author := "", date := 0 }], total := 2, query := "a", took := 2 })]
      rfl rfl rfl)))

/-- C1: evidence of the caching defect of `SearchAPI.search`.  The first call
stores its response (whose `took` field is the 50 ms request duration) under
the cache key; a second call with identical parameters only 123 ms later —
far inside the five-minute `cacheTimeout` — does not return the stored
response but fetches and filters again, because the freshness test compares
the wall-clock `Date.now()` (about 1.7·10¹²) with the stored duration, so
`Date.now() - cached.took < cacheTimeout` is false at any realistic clock
value. -/
theorem C1_second_call_recomputes :
    search [] { query := "a" } false
      { fetch := .ok [{ id := "", title := "a", description := "", category := "", tags := [], url := "", author := "", date := 0 }], now := 1700000000000, startTime := 0, endTime := 50 } =
      .ok ({ results := [{ id := "", title := "a", description := "", category := "", tags := [], url := "", author := "", date := 0 }], total := 1, query := "a", took := 50 },
        [("a-10-0", { results := [{ id := "", title := "a", description := "", category := "", tags := [], url := "", author := "", date := 0 }], total := 1, query := "a", took := 50 })]) ∧
    search [("a-10-0", { results := [{ id := "", title := "a", description := "", category := "", tags := [], url := "", author := "", date := 0 }], total := 1, query := "a", took := 50 })]
      { query := "a" } false
      { fetch := .ok [{ id := "", title := "a", description := "", category := "", tags := [], url := "", author := "", date := 0 }], now := 1700000000123, startTime := 1000, endTime := 1007 } =
      .ok ({ results := [{ id := "", title := "a", description := "", category := "", tags := [], url := "", author := "", date := 0 }], total := 1, query := "a", took := 7 },
        [("a-10-0", { results := [{ id := "", title := "a", description := "", category := "", tags := [], url := "", author := "", date := 0 }], total := 1, query := "a", took := 7 })]) ∧
    ({ results := [{ id := "", title := "a", description := "", category := "", tags := [], url := "", author := "", date := 0 }], total := 1, query := "a", took := 7 } : SearchResponse) ≠
      { results := [{ id := "", title := "a", description := "", category := "", tags := [], url := "", author := "", date := 0 }], total := 1, query := "a", took := 50 } ∧
    (1700000000123 : Int) - 1700000000000 < cacheTimeout :=
  And.intro rfl (And.intro rfl (And.intro (by decide) (by decide)))

/-- C2: in the `useSearch` hook, a settlement — success or failure — of a
request whose id no longer equals the current request id never writes its
results or its error into the hook state (last request wins). -/
theorem C2_stale_request_never_writes (m : HookMachine) (rid : Nat)
    (rs : List SearchResult) (msg : String) (h : rid ≠ m.requestId) :
    (stepComplete m rid rs).st = m.st ∧ (stepFail m rid msg).st = m.st := by
  constructor
  · simp [stepComplete, h]
  · unfold stepFail
    cases hf : m.requests.find? (fun r => r.id == rid) with
    | none => rfl
    | some req =>
        dsimp only
        rw [if_neg]
        intro hcon
        exact h hcon.1

theorem C2_witness :
    (1 : Nat) ≠ (initMachine 1 300).requestId ∧
    ((stepComplete (initMachine 1 300) 1 []).st = (initMachine 1 300).st ∧
      (stepFail (initMachine 1 300) 1 "boom").st = (initMachine 1 300).st) :=
  And.intro (by decide)
    (C2_stale_request_never_writes (initMachine 1 300) 1 [] "boom" (by decide))

/-- C6: a `SearchAPI.search` call that fails while its `AbortSignal` is
aborted rejects with the error message `Request cancelled`, and the
`useSearch` hook leaves its state — in particular its error field —
untouched when the promise of a request whose controller was aborted
rejects. -/
theorem C6_cancelled_request_error_handling (cache : SearchCache)
    (p : SearchParams) (env : SearchEnv) (e : String) (m : HookMachine)
    (rid : Nat) (msg : String) (req : SearchRequest)
    (hs : search cache p true env = .error e)
    (hf : m.requests.find? (fun r => r.id == rid) = some req)
    (ha : req.aborted = true) :
    e = "Request cancelled" ∧ stepFail m rid msg = m := by
  constructor
  · simp only [search] at hs
    cases hhit : cacheHit cache
        (mkCacheKey p.query (p.limit?.getD 10) (p.offset?.getD 0)) env.now with
    | some cached => simp [hhit] at hs
    | none =>
        simp only [hhit] at hs
        cases hfetch : env.fetch with
        | ok data => simp [hfetch] at hs
        | httpError status =>
            simp [hfetch] at hs
            exact hs.symm
        | netError msg2 =>
            simp [hfetch] at hs
            exact hs.symm
  · unfold stepFail
    rw [hf]
    dsimp only
    rw [if_neg]
    intro hcon
    rw [ha] at hcon
    exact Bool.noConfusion hcon.2

theorem C6_witness :
    search [] { query := "a" } true
      { fetch := .netError "boom", now := 0, startTime := 0, endTime := 0 } =
      .error "Request cancelled" ∧
    ({ initMachine 1 300 with requestId := 1, requests := [{ id := 1, query := "a", aborted := true }] } : HookMachine).requests.find? (fun r => r.id == 1) =
      some { id := 1, query := "a", aborted := true } ∧
    ({ id := 1, query := "a", aborted := true } : SearchRequest).aborted = true ∧
    ("Request cancelled" = "Request cancelled" ∧
      stepFail { initMachine 1 300 with requestId := 1, requests := [{ id := 1, query := "a", aborted := true }] } 1 "oops" =
        { initMachine 1 300 with requestId := 1, requests := [{ id := 1, query := "a", aborted := true }] }) :=
  And.intro rfl (And.intro rfl (And.intro rfl
    (C6_cancelled_request_error_handling [] { query := "a" }
      { fetch := .netError "boom", now := 0, startTime := 0, endTime := 0 }
      "Request cancelled"
      { initMachine 1 300 with requestId := 1, requests := [{ id := 1, query := "a", aborted := true }] }
      1 "oops" { id := 1, query := "a", aborted := true } rfl rfl rfl)))

theorem setAdd_nodup {l : List String} {s : String} (h : l.Nodup) :
    (setAdd l s).Nodup := by
  unfold setAdd
  split
  next => exact h
  next hns => simp [List.nodup_append, h, hns]

theorem setAdd_mem {l : List String} {s x : String} (h : x ∈ setAdd l s) :
    x ∈ l ∨ x = s := by
  unfold setAdd at h
  split at h
  · exact Or.inl h
  · simpa using h

theorem mem_ite_setAdd {c : Bool} {acc : List String} {s x : String}
    (h : x ∈ (if c then setAdd acc s else acc)) :
    x ∈ acc ∨ (x = s ∧ c = true) := by
  cases c
  · exact Or.inl (by simpa using h)
  · simp only [if_pos rfl] at h
    rcases setAdd_mem h with h2 | rfl
    · exact Or.inl h2
    · exact Or.inr ⟨rfl, rfl⟩

theorem nodup_ite_setAdd {c : Bool} {acc : List String} {s : String}
    (h : acc.Nodup) : (if c then setAdd acc s else acc).Nodup := by
  cases c
  · simpa using h
  · simpa using setAdd_nodup h

theorem foldTags_nodup (query : String) (tags : List String)
    (acc : List String) (h : acc.Nodup) :
    (tags.foldl (fun a tag =>
      if jsIncludes (jsToLower tag) (jsToLower query) then setAdd a tag else a)
      acc).Nodup := by
  induction tags generalizing acc with
  | nil => exact h
  | cons t ts ih =>
      simp only [List.foldl_cons]
      exact ih _ (nodup_ite_setAdd h)

theorem foldTags_mem (query : String) (tags : List String) (acc : List String)
    (x : String)
    (h : x ∈ tags.foldl (fun a tag =>
      if jsIncludes (jsToLower tag) (jsToLower query) then setAdd a tag else a)
      acc) :
    x ∈ acc ∨ (x ∈ tags ∧ jsIncludes (jsToLower x) (jsToLower query) = true) := by
  induction tags generalizing acc with
  | nil => exact Or.inl h
  | cons t ts ih =>
      simp only [List.foldl_cons] at h
      rcases ih _ h with h2 | ⟨ht, hm⟩
      · rcases mem_ite_setAdd h2 with h3 | ⟨rfl, hc⟩
        · exact Or.inl h3
        · exact Or.inr ⟨by simp, hc⟩
      · exact Or.inr ⟨by simp [ht], hm⟩

theorem addSuggestions_nodup (query : String) (r : SearchResult)
    (acc : List String) (h : acc.Nodup) :
    (addSuggestions query acc r).Nodup := by
  simp only [addSuggestions]
  exact foldTags_nodup query r.tags _ (nodup_ite_setAdd (nodup_ite_setAdd h))

theorem addSuggestions_mem (query : String) (r : SearchResult)
    (acc : List String) (x : String) (h : x ∈ addSuggestions query acc r) :
    x ∈ acc ∨ ((x = r.title ∨ x = r.category ∨ x ∈ r.tags) ∧
      jsIncludes (jsToLower x) (jsToLower query) = true) := by
  simp only [addSuggestions] at h
  rcases foldTags_mem query r.tags _ x h with h2 | ⟨ht, hm⟩
  · rcases mem_ite_setAdd h2 with h3 | ⟨rfl, hc⟩
    · rcases mem_ite_setAdd h3 with h4 | ⟨rfl, hc1⟩
      · exact Or.inl h4
      · exact Or.inr ⟨.inl rfl, hc1⟩
    · exact Or.inr ⟨.inr (.inl rfl), hc⟩
  · exact Or.inr ⟨.inr (.inr ht), hm⟩

theorem foldData_nodup (query : String) (data : List SearchResult)
    (acc : List String) (h : acc.Nodup) :
    (data.foldl (addSuggestions query) acc).Nodup := by
  induction data generalizing acc with
  | nil => exact h
  | cons r rs ih =>
      simp only [List.foldl_cons]
      exact ih _ (addSuggestions_nodup query r acc h)

theorem foldData_mem (query : String) (data : List SearchResult)
    (acc : List String) (x : String)
    (h : x ∈ data.foldl (addSuggestions query) acc) :
    x ∈ acc ∨ ∃ r, r ∈ data ∧ (x = r.title ∨ x = r.category ∨ x ∈ r.tags) ∧
      jsIncludes (jsToLower x) (jsToLower query) = true := by
  induction data generalizing acc with
  | nil => exact Or.inl h
  | cons r rs ih =>
      simp only [List.foldl_cons] at h
      rcases ih _ h with h2 | ⟨r', hr', hp⟩
      · rcases addSuggestions_mem query r acc x h2 with h3 | hsrc
        · exact Or.inl h3
        · exact Or.inr ⟨r, by simp, hsrc.1, hsrc.2⟩
      · exact Or.inr ⟨r', by simp [hr'], hp⟩

/-- C10: `SearchAPI.getSuggestions` returns the empty list for every query of
fewer than two characters; otherwise, on success it returns at most five
distinct strings, each of which is the title, the category, or a tag of some
dataset entry and itself contains the query case-insensitively. -/
theorem C10_suggestions_spec (query : String) (aborted : Bool)
    (data : List SearchResult) (out : List String)
    (h : getSuggestions query aborted (.ok data) = .ok out) :
    (∀ fetch, query.length < 2 → getSuggestions query aborted fetch = .ok []) ∧
    out.length ≤ 5 ∧ out.Nodup ∧
    ∀ s ∈ out, ∃ r, r ∈ data ∧ (s = r.title ∨ s = r.category ∨ s ∈ r.tags) ∧
      jsIncludes (jsToLower s) (jsToLower query) = true := by
  refine ⟨fun f hq => by simp [getSuggestions, hq], ?_⟩
  unfold getSuggestions at h
  split at h
  · simp only [Except.ok.injEq] at h
    subst h
    simp
  · simp only [Except.ok.injEq] at h
    subst h
    refine ⟨List.length_take_le _ _,
      List.Nodup.sublist (List.take_sublist _ _)
        (foldData_nodup query data [] (by simp)), ?_⟩
    intro s hs
    have hmem := (List.take_sublist _ _).mem hs
    rcases foldData_mem query data [] s hmem with h0 | hex
    · simp at h0
    · exact hex

theorem C10_witness :
    getSuggestions "ab" false
      (.ok [{ id := "", title := "ABc", description := "", category := "xaby", tags := ["zab"], url := "", author := "", date := 0 }]) =
      .ok ["ABc", "xaby", "zab"] ∧
    ((∀ fetch, ("ab" : String).length < 2 →
        getSuggestions "ab" false fetch = .ok []) ∧
      (["ABc", "xaby", "zab"] : List String).length ≤ 5 ∧
      (["ABc", "xaby", "zab"] : List String).Nodup ∧
      ∀ s ∈ (["ABc", "xaby", "zab"] : List String), ∃ r,
        r ∈ [({ id := "", title := "ABc", description := "", category := "xaby", tags := ["zab"], url := "", author := "", date := 0 } : SearchResult)] ∧
        (s = r.title ∨ s = r.category ∨ s ∈ r.tags) ∧
        jsIncludes (jsToLower s) (jsToLower "ab") = true) :=
  And.intro rfl
    (C10_suggestions_spec "ab" false
      [{ id := "", title := "ABc", description := "", category := "xaby", tags := ["zab"], url := "", author := "", date := 0 }]
      ["ABc", "xaby", "zab"] rfl)

/-- Invariant of the hook machine: every request id is at most the current
`requestIdRef` value, request ids are pairwise distinct, and an un-aborted
request always carries the current id. -/
def RequestInv (m : HookMachine) : Prop :=
  (∀ r ∈ m.requests, r.id ≤ m.requestId) ∧
  m.requests.Pairwise (fun a b => a.id ≠ b.id) ∧
  (∀ r ∈ m.requests, r.aborted = false → r.id = m.requestId)

theorem requestInv_init (a b : Nat) : RequestInv (initMachine a b) :=
  ⟨by simp [initMachine], by simp [initMachine], by simp [initMachine]⟩

theorem requestInv_performSearchStart {m : HookMachine} (hInv : RequestInv m)
    (query : String) : RequestInv (performSearchStart m query) := by
  obtain ⟨h1, h2, h3⟩ := hInv
  simp only [performSearchStart]
  split
  · exact ⟨h1, h2, h3⟩
  · refine ⟨?_, ?_, ?_⟩
    · intro r hr
      simp only [List.mem_append, List.mem_map, List.mem_singleton] at hr
      rcases hr with ⟨r0, hr0, rfl⟩ | rfl
      · have hb := h1 r0 hr0
        by_cases hc : r0.id = m.requestId <;> simp [hc] <;> omega
      · simp
    · apply List.pairwise_append.mpr
      refine ⟨?_, ?_, ?_⟩
      · refine List.Pairwise.map _ ?_ h2
        intro a b hab
        by_cases ha2 : a.id = m.requestId <;> by_cases hb2 : b.id = m.requestId <;>
          simp [ha2, hb2, hab] <;> omega
      · simp
      · intro a ha b hb
        simp only [List.mem_singleton] at hb
        subst hb
        rcases List.mem_map.mp ha with ⟨r0, hr0, rfl⟩
        have := h1 r0 hr0
        by_cases hc : r0.id = m.requestId <;> simp [hc] <;> omega
    · intro r hr hab
      simp only [List.mem_append, List.mem_map, List.mem_singleton] at hr
      rcases hr with ⟨r0, hr0, rfl⟩ | rfl
      · by_cases hc : r0.id = m.requestId
        · simp [hc] at hab
        · simp [hc] at hab
          exact absurd (h3 r0 hr0 hab) hc
      · simp

theorem requestInv_hookStep {m : HookMachine} (h : RequestInv m)
    (e : HookEvent) : RequestInv (hookStep m e) := by
  obtain ⟨h1, h2, h3⟩ := h
  cases e with
  | setQuery t q => exact ⟨h1, h2, h3⟩
  | fire tid t =>
      show RequestInv (stepFire m tid t)
      unfold stepFire
      split
      · split
        · refine requestInv_performSearchStart ?_ _
          exact ⟨h1, h2, h3⟩
        · exact ⟨h1, h2, h3⟩
      · exact ⟨h1, h2, h3⟩
  | complete rid rs =>
      show RequestInv (stepComplete m rid rs)
      unfold stepComplete
      split <;> exact ⟨h1, h2, h3⟩
  | fail rid msg =>
      show RequestInv (stepFail m rid msg)
      unfold stepFail
      split
      · split <;> exact ⟨h1, h2, h3⟩
      · exact ⟨h1, h2, h3⟩
  | clear =>
      show RequestInv (stepClear m)
      simp only [stepClear]
      refine ⟨?_, ?_, ?_⟩
      · intro r hr
        rcases List.mem_map.mp hr with ⟨r0, hr0, rfl⟩
        have := h1 r0 hr0
        by_cases hc : r0.id = m.requestId <;> simp [hc] <;> omega
      · refine List.Pairwise.map _ ?_ h2
        intro a b hab
        by_cases ha2 : a.id = m.requestId <;> by_cases hb2 : b.id = m.requestId <;>
          simp [ha2, hb2, hab] <;> omega
      · intro r hr hab
        rcases List.mem_map.mp hr with ⟨r0, hr0, rfl⟩
        by_cases hc : r0.id = m.requestId
        · simp [hc] at hab
        · simp [hc] at hab
          exact absurd (h3 r0 hr0 hab) hc

theorem requestInv_reachable {m : HookMachine} (h : Reachable m) :
    RequestInv m := by
  induction h with
  | init a b => exact requestInv_init a b
  | next m e hm ih => exact requestInv_hookStep ih e

theorem length_le_one_of_pairwise_ne {l : List SearchRequest} {k : Nat}
    (hp : l.Pairwise (fun a b => a.id ≠ b.id)) (hall : ∀ r ∈ l, r.id = k) :
    l.length ≤ 1 := by
  cases l with
  | nil => simp
  | cons a t =>
      cases t with
      | nil => simp
      | cons b t2 =>
          exfalso
          have hab := (List.pairwise_cons.mp hp).1 b (by simp)
          exact hab ((hall a (by simp)).trans (hall b (by simp)).symm)

theorem unaborted_subsingleton {m : HookMachine} (h : RequestInv m) :
    (m.requests.filter (fun r => r.aborted == false)).length ≤ 1 := by
  obtain ⟨h1, h2, h3⟩ := h
  have hall : ∀ r ∈ m.requests.filter (fun r => r.aborted == false),
      r.id = m.requestId := by
    intro r hr
    have hm := List.mem_filter.mp hr
    exact h3 r hm.1 (by simpa using hm.2)
  exact length_le_one_of_pairwise_ne
    (List.Pairwise.sublist (List.filter_sublist _) h2) hall

/-- C5: in every reachable hook state, at most one request is un-aborted and
such a request carries the current request id; moreover, whenever
`performSearch` starts a new request (query at least `minQueryLength` long),
it has aborted the controllers of all previous requests, so that after the
start the new request is the only possibly-un-aborted one. -/
theorem C5_at_most_one_unaborted_request (m : HookMachine)
    (hm : Reachable m) :
    ((m.requests.filter (fun r => r.aborted == false)).length ≤ 1) ∧
    (∀ r ∈ m.requests, r.aborted = false → r.id = m.requestId) ∧
    (∀ query : String, m.minQueryLength ≤ query.length →
      ∀ r ∈ (performSearchStart m query).requests, r.aborted = false →
        r.id = (performSearchStart m query).requestId) := by
  have h := requestInv_reachable hm
  exact ⟨unaborted_subsingleton h, h.2.2,
    fun query _ => (requestInv_performSearchStart h query).2.2⟩

theorem C5_witness :
    ((((initMachine 1 800).requests.filter
      (fun r => r.aborted == false)).length ≤ 1)) ∧
    (∀ r ∈ (initMachine 1 800).requests, r.aborted = false →
      r.id = (initMachine 1 800).requestId) ∧
    (∀ query : String, (initMachine 1 800).minQueryLength ≤ query.length →
      ∀ r ∈ (performSearchStart (initMachine 1 800) query).requests,
        r.aborted = false →
        r.id = (performSearchStart (initMachine 1 800) query).requestId) :=
  C5_at_most_one_unaborted_request (initMachine 1 800) (Reachable.init 1 800)

/-- Validity of a burst of events relative to the deadline `ft` of the
pending debounce timer: every `setQuery` arrives strictly before the pending
deadline (i.e. sooner than `debounceMs` after the previous call, which moves
the deadline to its time plus `d`), and every timer-fire attempt happens
strictly before the pending deadline. -/
def okBurst (d : Nat) : Nat → List HookEvent → Bool
  | _, [] => true
  | ft, .setQuery t _ :: rest => decide (t < ft) && okBurst d (t + d) rest
  | ft, .fire _ t :: rest => decide (t < ft) && okBurst d ft rest
  | _, _ :: _ => false

/-- The query of the last `setQuery` of the burst (`q0` if there is none). -/
def lastBurstQuery (q0 : String) : List HookEvent → String
  | [] => q0
  | .setQuery _ q :: rest => lastBurstQuery q rest
  | _ :: rest => lastBurstQuery q0 rest

theorem performSearchStart_searchLog (m : HookMachine) (query : String) :
    (performSearchStart m query).searchLog = m.searchLog ++ [query] := by
  simp only [performSearchStart]
  split <;> rfl

theorem burst_run (d : Nat) (evs : List HookEvent) :
    ∀ (m : HookMachine) (tm : DebounceTimer), m.debounceMs = d →
    m.timers = [tm] → m.timerRef = some tm.id →
    okBurst d tm.deadline evs = true →
    (runEvents m evs).searchLog = m.searchLog ∧
    (runEvents m evs).debounceMs = d ∧
    ∃ tm' : DebounceTimer, (runEvents m evs).timers = [tm'] ∧
      (runEvents m evs).timerRef = some tm'.id ∧
      tm'.query = lastBurstQuery tm.query evs := by
  induction evs with
  | nil =>
      intro m tm hd htm href _
      exact ⟨rfl, hd, tm, htm, href, rfl⟩
  | cons e rest ih =>
      intro m tm hd htm href hok
      cases e with
      | setQuery t q =>
          simp only [okBurst, Bool.and_eq_true, decide_eq_true_eq] at hok
          have hrun : runEvents m (.setQuery t q :: rest) =
              runEvents (stepSetQuery m t q) rest := rfl
          rw [hrun]
          have h1 : (stepSetQuery m t q).timers =
              [{ id := m.nextTimerId, deadline := t + d, query := q }] := by
            simp only [stepSetQuery, href, hd]
            rw [htm]
            simp [List.filter]
          have h2 : (stepSetQuery m t q).timerRef = some m.nextTimerId := rfl
          have h3 : (stepSetQuery m t q).debounceMs = d := hd
          have := ih (stepSetQuery m t q)
            { id := m.nextTimerId, deadline := t + d, query := q } h3 h1 h2
            (by simpa using hok.2)
          refine ⟨this.1.trans rfl, this.2.1, ?_⟩
          obtain ⟨tm', ha, hb, hc⟩ := this.2.2
          exact ⟨tm', ha, hb, by simpa [lastBurstQuery] using hc⟩
      | fire tid t =>
          simp only [okBurst, Bool.and_eq_true, decide_eq_true_eq] at hok
          have hstep : stepFire m tid t = m := by
            unfold stepFire
            rw [htm]
            by_cases hc : tm.id = tid
            · have : List.find? (fun x => x.id == tid) [tm] = some tm := by
                simp [List.find?, hc]
              rw [this]
              have : ¬ tm.deadline ≤ t := by omega
              simp [this]
            · have hbeq : (tm.id == tid) = false := by simpa using hc
              have : List.find? (fun x => x.id == tid) [tm] = none := by
                simp [List.find?, hbeq]
              rw [this]
          have hrun : runEvents m (.fire tid t :: rest) =
              runEvents (stepFire m tid t) rest := rfl
          rw [hrun, hstep]
          have := ih m tm hd htm href hok.2
          obtain ⟨ha, hb, tm', hc, hd2, he⟩ := this
          exact ⟨ha, hb, tm', hc, hd2, by simpa [lastBurstQuery] using he⟩
      | complete rid rs => simp [okBurst] at hok
      | fail rid msg => simp [okBurst] at hok
      | clear => simp [okBurst] at hok

/-- C7: every `setQuery` call cancels the previously scheduled pending search
(the cleared timer can never fire) and schedules `performSearch` to run
`debounceMs` later; consequently, over a burst of `setQuery` calls each
arriving sooner than `debounceMs` after the previous one (with arbitrary
premature fire attempts interleaved), no search at all is started during the
burst, the single surviving timer carries the final query, and firing it
after its deadline searches exactly that final query. -/
theorem C7_debounce_last_query_wins (m : HookMachine) (tm : DebounceTimer)
    (evs : List HookEvent) (d : Nat)
    (hd : m.debounceMs = d) (htm : m.timers = [tm])
    (href : m.timerRef = some tm.id)
    (hok : okBurst d tm.deadline evs = true) :
    (∀ (mm : HookMachine) (s : Nat) (q : String) (tid u : Nat),
      mm.timerRef = some tid → tid ≠ mm.nextTimerId →
      stepFire (stepSetQuery mm s q) tid u = stepSetQuery mm s q ∧
      ({ id := mm.nextTimerId, deadline := s + mm.debounceMs, query := q } :
        DebounceTimer) ∈ (stepSetQuery mm s q).timers ∧
      (stepSetQuery mm s q).timerRef = some mm.nextTimerId) ∧
    (runEvents m evs).searchLog = m.searchLog ∧
    ∃ tm' : DebounceTimer, (runEvents m evs).timers = [tm'] ∧
      tm'.query = lastBurstQuery tm.query evs ∧
      ∀ u : Nat, tm'.deadline ≤ u →
        (stepFire (runEvents m evs) tm'.id u).searchLog =
          m.searchLog ++ [lastBurstQuery tm.query evs] := by
  have hset : ∀ (mm : HookMachine) (s : Nat) (q : String) (tid : Nat),
      mm.timerRef = some tid →
      (stepSetQuery mm s q).timers =
        mm.timers.filter (fun x => x.id ≠ tid) ++
          [{ id := mm.nextTimerId, deadline := s + mm.debounceMs, query := q }] := by
    intro mm s q tid hr
    simp only [stepSetQuery, hr]
  refine ⟨?_, ?_⟩
  · intro mm s q tid u hr hne
    refine ⟨?_, ?_, rfl⟩
    · unfold stepFire
      have hfind :
          ((stepSetQuery mm s q).timers.find? (fun x => x.id == tid)) = none := by
        apply List.find?_eq_none.mpr
        intro x hx
        rw [hset mm s q tid hr] at hx
        simp only [List.mem_append, List.mem_filter, List.mem_singleton] at hx
        rcases hx with ⟨_, hxne⟩ | rfl
        · simpa using (by simpa using hxne : x.id ≠ tid)
        · simpa using hne.symm
      rw [hfind]
    · rw [hset mm s q tid hr]
      simp
  · have h := burst_run d evs m tm hd htm href hok
    obtain ⟨hlog, hdm, tm', htm', href', hq⟩ := h
    refine ⟨hlog, tm', htm', hq, ?_⟩
    intro u hu
    unfold stepFire
    have hfind :
        ((runEvents m evs).timers.find? (fun x => x.id == tm'.id)) = some tm' := by
      rw [htm']
      simp [List.find?]
    rw [hfind]
    dsimp only
    rw [if_pos hu, performSearchStart_searchLog]
    dsimp only
    rw [hlog, hq]

theorem C7_witness :
    ({ st := { results := [], loading := false, error := none, query := "a" }, requestId := 0, requests := [], timers := [{ id := 0, deadline := 800, query := "a" }], timerRef := some 0, nextTimerId := 1, searchLog := [], minQueryLength := 2, debounceMs := 800 } : HookMachine).debounceMs = 800 ∧
    ({ st := { results := [], loading := false, error := none, query := "a" }, requestId := 0, requests := [], timers := [{ id := 0, deadline := 800, query := "a" }], timerRef := some 0, nextTimerId := 1, searchLog := [], minQueryLength := 2, debounceMs := 800 } : HookMachine).timers = [{ id := 0, deadline := 800, query := "a" }] ∧
    ({ st := { results := [], loading := false, error := none, query := "a" }, requestId := 0, requests := [], timers := [{ id := 0, deadline := 800, query := "a" }], timerRef := some 0, nextTimerId := 1, searchLog := [], minQueryLength := 2, debounceMs := 800 } : HookMachine).timerRef = some ({ id := 0, deadline := 800, query := "a" } : DebounceTimer).id ∧
    okBurst 800 ({ id := 0, deadline := 800, query := "a" } : DebounceTimer).deadline [HookEvent.setQuery 300 "ab", HookEvent.fire 0 500, HookEvent.setQuery 700 "abc"] = true ∧
    ((∀ (mm : HookMachine) (s : Nat) (q : String) (tid u : Nat),
      mm.timerRef = some tid → tid ≠ mm.nextTimerId →
      stepFire (stepSetQuery mm s q) tid u = stepSetQuery mm s q ∧
      ({ id := mm.nextTimerId, deadline := s + mm.debounceMs, query := q } :
        DebounceTimer) ∈ (stepSetQuery mm s q).timers ∧
      (stepSetQuery mm s q).timerRef = some mm.nextTimerId) ∧
    (runEvents { st := { results := [], loading := false, error := none, query := "a" }, requestId := 0, requests := [], timers := [{ id := 0, deadline := 800, query := "a" }], timerRef := some 0, nextTimerId := 1, searchLog := [], minQueryLength := 2, debounceMs := 800 } [HookEvent.setQuery 300 "ab", HookEvent.fire 0 500, HookEvent.setQuery 700 "abc"]).searchLog = ({ st := { results := [], loading := false, error := none, query := "a" }, requestId := 0, requests := [], timers := [{ id := 0, deadline := 800, query := "a" }], timerRef := some 0, nextTimerId := 1, searchLog := [], minQueryLength := 2, debounceMs := 800 } : HookMachine).searchLog ∧
    ∃ tm' : DebounceTimer, (runEvents { st := { results := [], loading := false, error := none, query := "a" }, requestId := 0, requests := [], timers := [{ id := 0, deadline := 800, query := "a" }], timerRef := some 0, nextTimerId := 1, searchLog := [], minQueryLength := 2, debounceMs := 800 } [HookEvent.setQuery 300 "ab", HookEvent.fire 0 500, HookEvent.setQuery 700 "abc"]).timers = [tm'] ∧
      tm'.query = lastBurstQuery "a" [HookEvent.setQuery 300 "ab", HookEvent.fire 0 500, HookEvent.setQuery 700 "abc"] ∧
      ∀ u : Nat, tm'.deadline ≤ u →
        (stepFire (runEvents { st := { results := [], loading := false, error := none, query := "a" }, requestId := 0, requests := [], timers := [{ id := 0, deadline := 800, query := "a" }], timerRef := some 0, nextTimerId := 1, searchLog := [], minQueryLength := 2, debounceMs := 800 } [HookEvent.setQuery 300 "ab", HookEvent.fire 0 500, HookEvent.setQuery 700 "abc"]) tm'.id u).searchLog =
          ({ st := { results := [], loading := false, error := none, query := "a" }, requestId := 0, requests := [], timers := [{ id := 0, deadline := 800, query := "a" }], timerRef := some 0, nextTimerId := 1, searchLog := [], minQueryLength := 2, debounceMs := 800 } : HookMachine).searchLog ++ [lastBurstQuery "a" [HookEvent.setQuery 300 "ab", HookEvent.fire 0 500, HookEvent.setQuery 700 "abc"]]) :=
  And.intro rfl (And.intro rfl (And.intro rfl (And.intro (by decide)
    (C7_debounce_last_query_wins
      { st := { results := [], loading := false, error := none, query := "a" }, requestId := 0, requests := [], timers := [{ id := 0, deadline := 800, query := "a" }], timerRef := some 0, nextTimerId := 1, searchLog := [], minQueryLength := 2, debounceMs := 800 }
      { id := 0, deadline := 800, query := "a" }
      [HookEvent.setQuery 300 "ab", HookEvent.fire 0 500, HookEvent.setQuery 700 "abc"]
      800 rfl rfl rfl (by decide)))))

theorem lookup_filter_ne (k : String) (l : List (String × String)) :
    List.lookup k (l.filter (fun e => e.1 ≠ k)) = none := by
  induction l with
  | nil => rfl
  | cons e t ih =>
      obtain ⟨k', v'⟩ := e
      by_cases hc : k' = k
      · simpa [List.filter_cons, hc] using ih
      · have hbeq : (k == k') = false := beq_eq_false_iff_ne.mpr (Ne.symm hc)
        simpa [List.filter_cons, hc, List.lookup_cons, hbeq] using ih

theorem lookup_set (k v : String) (l : List (String × String)) :
    List.lookup k (l.filter (fun e => e.1 ≠ k) ++ [(k, v)]) = some v := by
  induction l with
  | nil => simp [List.lookup_cons]
  | cons e t ih =>
      obtain ⟨k', v'⟩ := e
      by_cases hc : k' = k
      · simpa [List.filter_cons, hc] using ih
      · have hbeq : (k == k') = false := beq_eq_false_iff_ne.mpr (Ne.symm hc)
        simpa [List.filter_cons, hc, List.lookup_cons, hbeq] using ih

/-- C8: once the pending 1000 ms URL-sync timeout of `SearchInput` fires
after the value's last change, the page URL's `q` parameter equals the
trimmed value whenever that is non-empty and is absent whenever the value is
blank; the URL is replaced in place and no page load is triggered. -/
theorem C8_url_query_sync (m : InputMachine) (t : Nat) (v : String) (u : Nat)
    (hu : t + 1000 ≤ u) :
    (jsTrim v ≠ "" →
      List.lookup "q" (inputFire (inputChange m t v) u).url.params =
        some (jsTrim v)) ∧
    (jsTrim v = "" →
      List.lookup "q" (inputFire (inputChange m t v) u).url.params = none) ∧
    (inputFire (inputChange m t v) u).loadCount = m.loadCount ∧
    (inputFire (inputChange m t v) u).value = v := by
  have hfire : inputFire (inputChange m t v) u =
      { m with value := v, url := urlEffect v m.url, urlTimer := none } := by
    unfold inputFire inputChange
    dsimp only
    rw [if_pos hu]
  rw [hfire]
  refine ⟨?_, ?_, rfl, rfl⟩
  · intro hne
    unfold urlEffect
    rw [if_pos hne]
    exact lookup_set "q" (jsTrim v) m.url.params
  · intro he
    unfold urlEffect
    rw [if_neg (by simp [he])]
    exact lookup_filter_ne "q" m.url.params

theorem C8_witness :
    0 + 1000 ≤ 1000 ∧
    ((jsTrim " hi " ≠ "" →
      List.lookup "q" (inputFire (inputChange { value := "", url := { params := [("q", "old"), ("x", "1")] }, urlTimer := none, loadCount := 0 } 0 " hi ") 1000).url.params =
        some (jsTrim " hi ")) ∧
    (jsTrim " hi " = "" →
      List.lookup "q" (inputFire (inputChange { value := "", url := { params := [("q", "old"), ("x", "1")] }, urlTimer := none, loadCount := 0 } 0 " hi ") 1000).url.params = none) ∧
    (inputFire (inputChange { value := "", url := { params := [("q", "old"), ("x", "1")] }, urlTimer := none, loadCount := 0 } 0 " hi ") 1000).loadCount =
      ({ value := "", url := { params := [("q", "old"), ("x", "1")] }, urlTimer := none, loadCount := 0 } : InputMachine).loadCount ∧
    (inputFire (inputChange { value := "", url := { params := [("q", "old"), ("x", "1")] }, urlTimer := none, loadCount := 0 } 0 " hi ") 1000).value = " hi ") :=
  And.intro (by decide)
    (C8_url_query_sync
      { value := "", url := { params := [("q", "old"), ("x", "1")] }, urlTimer := none, loadCount := 0 }
      0 " hi " 1000 (by decide))
